import Mathlib

/- Shallow embedding of the MeroPasal retail analytics pipeline
   (ml_backend/retail_analytics_pipeline.py and ml_backend/product_performance.py).

   Quantities, prices and aggregates are embedded as rationals; a pandas missing
   value (the NaN mean of an empty selection) is embedded as Option; a Python
   exception is embedded as Except.  Year-month periods are embedded as linear
   month indices (Nat), so the calendar successor of a month m is m + 1. -/

namespace MeroPasal

/-- pandas Series.mean over the listed values: NaN (embedded as none) on an empty
selection, otherwise the arithmetic mean. -/
def seriesMean (xs : List ℚ) : Option ℚ :=
  if xs.length = 0 then none else some (xs.sum / xs.length)

/-- Python str.lower, character by character (the plan names this program compares
against are ASCII, where Char.toLower agrees with Python). -/
def pyLower (s : String) : String := String.mk (s.data.map Char.toLower)

/-! ## Subscription plans (RetailAnalyticsPipeline.set_subscription, lines 499-505) -/

/-- The keys of the subscription_plans dictionary built in
RetailAnalyticsPipeline.__init__ (lines 40-54): free and premium. -/
def subscription_plan_names : List String := ["free", "premium"]

/-- RetailAnalyticsPipeline.set_subscription (lines 499-505): validates plan.lower()
against the plan dictionary keys and stores the lowercased name on success.  The
result pairs the current_subscription attribute after the call with the Python
return value (True) or the raised ValueError message. -/
def set_subscription (current_subscription : String) (plan : String) :
    String × Except String Bool :=
  if pyLower plan ∈ subscription_plan_names then
    (pyLower plan, Except.ok true)
  else
    (current_subscription,
      Except.error "Invalid subscription plan. Available: [free, premium]")

/-! ## Customer segmentation (RetailAnalyticsPipeline.perform_customer_segmentation,
lines 1199-1275) -/

/-- One row of the customer_profiles frame built by create_customer_profiles.  All
eight candidate clustering feature columns of the potential_features list are
present in this schema, so the no-usable-features branch of the source is not
reachable here. -/
structure CustomerProfile where
  total_amount_sum : ℚ
  total_amount_mean : ℚ
  total_amount_count : ℚ
  quantity_sum : ℚ
  product_id_nunique : ℚ
  shop_id_nunique : ℚ
  avg_basket_size : ℚ
  tenure_days : ℚ

/-- Model of sklearn KMeans(n_clusters).fit_predict on n_samples rows: raises when
n_clusters is below 1 or when there are fewer samples than clusters, otherwise
returns one label per sample with every label below n_clusters.  The concrete
assignment of samples to clusters is supplied by the assign oracle (the centroid
optimisation itself is not modelled); taking the oracle value mod n_clusters
reflects the guarantee that labels range over 0..n_clusters-1. -/
def kmeansFitPredict (n_clusters n_samples : Nat) (assign : Nat → Nat) :
    Except String (List Nat) :=
  if n_clusters = 0 then
    Except.error "n_clusters should be an int in the range [1, inf)"
  else if n_samples < n_clusters then
    Except.error ("n_samples=" ++ toString n_samples ++
      " should be >= n_clusters=" ++ toString n_clusters)
  else
    Except.ok ((List.range n_samples).map (fun i => assign i % n_clusters))

/-- Outcome of perform_customer_segmentation: the function returns False after
printing a message when the profile table is empty (noProfiles) or when the try
block raises (segError, carrying the printed error text), and returns True with
the per-customer cluster labels on success. -/
inductive SegOutcome where
  | noProfiles : SegOutcome
  | segError : String → SegOutcome
  | success : List Nat → SegOutcome
deriving DecidableEq

/-- RetailAnalyticsPipeline.perform_customer_segmentation (lines 1199-1275): guards
only against an empty profile table, then scales the feature columns and calls
KMeans(n_clusters).fit_predict on the profile rows; any exception raised inside the
try block - in particular the sklearn error raised when there are fewer samples
than the requested clusters - is caught, printed as a generic segmentation error,
and turned into a False return.  There is no customer-count precheck in this
function. -/
def perform_customer_segmentation (profiles : List CustomerProfile)
    (assign : Nat → Nat) (n_clusters : Nat) : SegOutcome :=
  if profiles.length = 0 then SegOutcome.noProfiles
  else
    match kmeansFitPredict n_clusters profiles.length assign with
    | Except.error msg => SegOutcome.segError ("Error in customer segmentation: " ++ msg)
    | Except.ok labels => SegOutcome.success labels

/-- A concrete customer profile row used by witnesses and counterexamples. -/
def sampleProfile : CustomerProfile :=
  { total_amount_sum := 500, total_amount_mean := 50, total_amount_count := 10
    quantity_sum := 25, product_id_nunique := 4, shop_id_nunique := 2
    avg_basket_size := 5/2, tenure_days := 90 }

/-! ## Prediction (RetailAnalyticsPipeline.predict_for_product_shop lines 676-712,
_predict_for_new_combination lines 714-790, run_scenario lines 808-850) -/

/-- One row of the pipeline's products frame (load_and_prepare_data lines 94-109). -/
structure Product where
  product_id : String
  product_name : String
  category : String
  standard_price : ℚ
deriving DecidableEq

/-- One row of the pipeline's monthly_data frame, restricted to the columns the
prediction paths read: the key (product_id, shop_id, year_month), the target
monthly_quantity, and the joined category.  A row also stands for its engineered
feature vector when handed to the trained regressor. -/
structure MRow where
  product_id : String
  shop_id : String
  year_month : Nat
  monthly_quantity : ℚ
  category : String
deriving DecidableEq

/-- The pipeline state read by the prediction paths: the is_trained flag, the
feature table monthly_data, the products catalog, and the fitted regressor.  The
regressor is embedded as an arbitrary function from the most recent feature row to
a rational prediction (the random forest itself is not modelled; every theorem
below holds for every such function). -/
structure Pipeline where
  is_trained : Bool
  monthly_data : List MRow
  products : List Product
  model : MRow → ℚ

/-- The dictionary returned by predict_for_product_shop and
_predict_for_new_combination. -/
structure PredictionResult where
  predicted_quantity : ℚ
  last_actual : ℚ
  last_date : String
  confidence : String
  historical_points : Nat
  note : Option String
deriving DecidableEq

/-- Fallback tier 1 of _predict_for_new_combination (lines 733-736): this
product's mean monthly_quantity across all shops. -/
def tier_product_avg (pl : Pipeline) (product_id : String) : Option ℚ :=
  seriesMean ((pl.monthly_data.filter
    (fun r => r.product_id == product_id)).map (·.monthly_quantity))

/-- Fallback tier 3 of _predict_for_new_combination (lines 738-741): this shop's
mean monthly_quantity across all products. -/
def tier_shop_avg (pl : Pipeline) (shop_id : String) : Option ℚ :=
  seriesMean ((pl.monthly_data.filter
    (fun r => r.shop_id == shop_id)).map (·.monthly_quantity))

/-- Fallback tier 2 of _predict_for_new_combination (lines 743-747): the mean
monthly_quantity of the product's category at this specific shop. -/
def tier_category_shop_avg (pl : Pipeline) (category shop_id : String) : Option ℚ :=
  seriesMean ((pl.monthly_data.filter
    (fun r => r.category == category && r.shop_id == shop_id)).map
      (·.monthly_quantity))

/-- Fallback tier 4 of _predict_for_new_combination (lines 749-752): the mean
monthly_quantity of the product's category across all shops. -/
def tier_category_avg (pl : Pipeline) (category : String) : Option ℚ :=
  seriesMean ((pl.monthly_data.filter
    (fun r => r.category == category)).map (·.monthly_quantity))

/-- Fallback tier 5 of _predict_for_new_combination (lines 754-755): the global
mean monthly_quantity over the whole feature table. -/
def tier_overall_avg (pl : Pipeline) : Option ℚ :=
  seriesMean (pl.monthly_data.map (·.monthly_quantity))

/-- The cold-start fallback _predict_for_new_combination (lines 714-790).  In the source each tier's note
interpolates the chosen value with one-decimal float formatting; the embedded note
keeps the identifying text of each tier and elides the numeric rendering. -/
def predict_for_new_combination (pl : Pipeline) (product_id shop_id : String) :
    PredictionResult :=
  match (pl.products.filter (fun p => p.product_id == product_id)).head? with
  | none =>
      { predicted_quantity := 10, last_actual := 0, last_date := "No data",
        confidence := "very_low", historical_points := 0,
        note := some "Product not found in catalog - using default estimate" }
  | some product_info =>
      let product_category := product_info.category
      match tier_product_avg pl product_id with
      | some q =>
          { predicted_quantity := max 0 q, last_actual := 0,
            last_date := "No historical data", confidence := "medium",
            historical_points := 0,
            note := some "Based on average sales of this product" }
      | none =>
          match tier_category_shop_avg pl product_category shop_id with
          | some q =>
              { predicted_quantity := max 0 q, last_actual := 0,
                last_date := "No historical data", confidence := "low",
                historical_points := 0,
                note := some ("Based on " ++ product_category ++
                  " sales at this shop") }
          | none =>
              match tier_shop_avg pl shop_id with
              | some q =>
                  { predicted_quantity := max 0 q, last_actual := 0,
                    last_date := "No historical data", confidence := "low",
                    historical_points := 0,
                    note := some "Based on average sales at this shop" }
              | none =>
                  match tier_category_avg pl product_category with
                  | some q =>
                      { predicted_quantity := max 0 q, last_actual := 0,
                        last_date := "No historical data",
                        confidence := "very_low", historical_points := 0,
                        note := some ("Based on " ++ product_category ++
                          " category average") }
                  | none =>
                      let prediction := (tier_overall_avg pl).getD 10
                      { predicted_quantity := max 0 prediction, last_actual := 0,
                        last_date := "No historical data",
                        confidence := "very_low", historical_points := 0,
                        note := some "Based on overall average" }

/-- The product-shop history selection of predict_for_product_shop (lines
685-689): the feature-table rows of the pair, sorted by year_month. -/
def historical_data (pl : Pipeline) (product_id shop_id : String) : List MRow :=
  List.insertionSort (fun a b => a.year_month ≤ b.year_month)
    (pl.monthly_data.filter
      (fun r => r.product_id == product_id && r.shop_id == shop_id))

/-- predict_for_product_shop continued: raises when the model is not trained,
otherwise predicts from the most recent history row (floored at 0, confidence
high) or delegates to the cold-start fallback when the pair has no history. -/
def predict_for_product_shop (pl : Pipeline) (product_id shop_id : String) :
    Except String PredictionResult :=
  if pl.is_trained = false then
    Except.error "Model not trained. Call train_model() first."
  else
    match (historical_data pl product_id shop_id).getLast? with
    | none => Except.ok (predict_for_new_combination pl product_id shop_id)
    | some latest_record =>
        Except.ok
          { predicted_quantity := max 0 (pl.model latest_record),
            last_actual := latest_record.monthly_quantity,
            last_date := toString latest_record.year_month,
            confidence := "high",
            historical_points := (historical_data pl product_id shop_id).length,
            note := none }

/-- The seasonal_multipliers dictionary lookup of run_scenario (lines 829-834)
with its default of 1.0 for unknown seasons. -/
def seasonal_multiplier (season : String) : ℚ :=
  if season == "normal" then 1
  else if season == "holiday" then 13/10
  else if season == "summer" then 8/10
  else 1

/-- The dictionary returned by run_scenario; the except branch of the source omits
confidence and note and carries an error string instead, embedded here with Option
fields. -/
structure ScenarioResult where
  original : ℚ
  predicted : ℚ
  change : ℚ
  change_pct : ℚ
  confidence : Option String
  note : Option String
  error : Option String
deriving DecidableEq

/-- run_scenario (lines 808-850): multiplies the base prediction by the price
elasticity, marketing and season factors, floors at 0, and reports the change;
the exception raised by an untrained predict call is caught and returned as a
zeroed result with an error message. -/
def run_scenario (pl : Pipeline) (product_id shop_id : String)
    (price_change marketing_boost : ℚ) (season : String) : ScenarioResult :=
  match predict_for_product_shop pl product_id shop_id with
  | Except.error e =>
      { original := 0, predicted := 0, change := 0, change_pct := 0,
        confidence := none, note := none, error := some e }
  | Except.ok base_prediction =>
      let base_qty := base_prediction.predicted_quantity
      let price_elasticity : ℚ := -(1/2)
      let adjusted_qty1 := base_qty * (1 + price_change * price_elasticity)
      let marketing_effect := (marketing_boost - 3) * (1/10)
      let adjusted_qty2 := adjusted_qty1 * (1 + marketing_effect)
      let adjusted_qty3 := adjusted_qty2 * seasonal_multiplier season
      let adjusted_qty := max 0 adjusted_qty3
      let change := adjusted_qty - base_qty
      let change_pct := if 0 < base_qty then change / base_qty * 100 else 0
      { original := base_qty, predicted := adjusted_qty, change := change,
        change_pct := change_pct,
        confidence := some base_prediction.confidence,
        note := some (base_prediction.note.getD ""), error := none }

/-! ## Monthly aggregation and feature engineering
(prepare_monthly_data lines 307-386, create_features lines 388-444) -/

/-- One merged transaction-level row of the pipeline's data frame
(load_and_prepare_data), restricted to the columns prepare_monthly_data reads for
the claims here; year_month is transaction_time truncated to the calendar month. -/
structure Transaction where
  product_id : String
  shop_id : String
  year_month : Nat
  quantity : ℚ
  category : String
deriving DecidableEq

/-- The groupby key of the product-shop-month aggregation (lines 317-319). -/
def txnKey (t : Transaction) : String × String × Nat :=
  (t.product_id, t.shop_id, t.year_month)

/-- prepare_monthly_data (lines 307-386): one output row per distinct
(product_id, shop_id, year_month) key, with quantity summed over the group and
category carried over by first-of-group aggregation.  (pandas emits the groups
sorted by key; this embedding keeps them in first-occurrence order, which
coincides on the chronologically ordered concrete inputs below and does not
affect group sums or keying.) -/
def prepare_monthly_data (ts : List Transaction) : List MRow :=
  ((ts.map txnKey).dedup).map (fun k =>
    { product_id := k.1, shop_id := k.2.1, year_month := k.2.2,
      monthly_quantity :=
        ((ts.filter (fun t => txnKey t == k)).map (·.quantity)).sum,
      category :=
        (((ts.filter (fun t => txnKey t == k)).map (·.category)).head?).getD "" })

/-- Rows of the same (product_id, shop_id) group (the groupby of
create_features, lines 401-411). -/
def sameGroup (x r : MRow) : Bool :=
  x.product_id == r.product_id && x.shop_id == r.shop_id

/-- One row of the feature table produced by create_features: the monthly row
together with its three lag columns. -/
structure FeatureRow where
  row : MRow
  last_month_qty : ℚ
  last_2_months_qty : ℚ
  last_3_months_qty : ℚ
deriving DecidableEq

/-- The groupby(product_id, shop_id) shift-1/2/3 lags of the row at table index
i: the monthly_quantity of the previous, second-previous and third-previous rows
of the same group in table order (create_features lines 400-411), none when any
of them does not exist. -/
def lagsAt (rows : List MRow) (i : Nat) : Option (ℚ × ℚ × ℚ) :=
  match rows[i]? with
  | none => none
  | some r =>
    let prev := ((rows.take i).filter (fun x => sameGroup x r)).reverse
    match prev[0]?, prev[1]?, prev[2]? with
    | some a, some b, some c =>
        some (a.monthly_quantity, b.monthly_quantity, c.monthly_quantity)
    | _, _, _ => none

/-- create_features (lines 388-444) restricted to the lag columns: annotates each
monthly row with its shift-1/2/3 lags within its (product_id, shop_id) group and
drops every row for which any of the three lags is missing (the dropna of lines
439-441). -/
def create_features (rows : List MRow) : List FeatureRow :=
  (List.range rows.length).filterMap (fun i =>
    match rows[i]?, lagsAt rows i with
    | some r, some (a, b, c) =>
        some { row := r, last_month_qty := a, last_2_months_qty := b,
               last_3_months_qty := c }
    | _, _ => none)

/-- A monthly table whose single (P1, S1) group has data for months 0, 1, 2 and 4:
month 3 is missing, so the row of month 4 takes its lag from month 2. -/
def gapTable : List MRow :=
  [⟨"P1", "S1", 0, 10, "drinks"⟩, ⟨"P1", "S1", 1, 20, "drinks"⟩,
   ⟨"P1", "S1", 2, 30, "drinks"⟩, ⟨"P1", "S1", 4, 40, "drinks"⟩]

/-- A monthly table whose single (P1, S1) group has four consecutive months with
the quantities of the end-to-end example of the specification. -/
def contigTable : List MRow :=
  [⟨"P1", "S1", 0, 10, "drinks"⟩, ⟨"P1", "S1", 1, 12, "drinks"⟩,
   ⟨"P1", "S1", 2, 9, "drinks"⟩, ⟨"P1", "S1", 3, 15, "drinks"⟩]

/-! ## Shopkeeper stock recommendations
(product_performance.py, _generate_shopkeeper_recommendations lines 420-466) -/

/-- One row of ProductPerformanceAnalyzer.monthly_data after predict_next_month
has added the predicted_quantity column, restricted to the columns the
shopkeeper generator reads. -/
structure PerfRow where
  shop_id : String
  product_id : String
  product_name : String
  monthly_quantity : ℚ
  predicted_quantity : ℚ
deriving DecidableEq

/-- The groupby key of the shop_performance aggregation (line 426). -/
def perfKey (d : PerfRow) : String × String := (d.shop_id, d.product_id)

/-- The per-group mean of a column over the rows with the given
(shop_id, product_id) key. -/
def perfMean (data : List PerfRow) (k : String × String) (f : PerfRow → ℚ) : ℚ :=
  ((data.filter (fun d => perfKey d == k)).map f).sum /
    ((data.filter (fun d => perfKey d == k)).length : ℚ)

/-- One row of the shop_performance aggregate (lines 426-430). -/
structure ShopPerfRow where
  shop_id : String
  product_id : String
  predicted_quantity : ℚ
  monthly_quantity : ℚ
deriving DecidableEq

/-- shop_performance (lines 426-430): one row per distinct (shop_id, product_id)
with the mean predicted and historical monthly quantities (the revenue mean is
not read afterwards and is omitted). -/
def shop_performance (data : List PerfRow) : List ShopPerfRow :=
  ((data.map perfKey).dedup).map (fun k =>
    { shop_id := k.1, product_id := k.2,
      predicted_quantity := perfMean data k (·.predicted_quantity),
      monthly_quantity := perfMean data k (·.monthly_quantity) })

/-- One stock recommendation record (lines 439-449 and 451-461). -/
structure StockRec where
  shop_id : String
  product_id : String
  product_name : String
  type : String
  current_avg : ℚ
  predicted : ℚ
  reason : String
deriving DecidableEq

/-- The product_name lookup of lines 442-444: the first monthly_data row whose
product_id matches. -/
def perf_product_name (data : List PerfRow) (pid : String) : String :=
  (((data.filter (fun d => d.product_id == pid)).map
    (·.product_name)).head?).getD ""

/-- The if/elif emission of lines 437-461: increase_stock above 1.5 times the
historical mean, otherwise decrease_stock below 0.5 times it, otherwise
nothing. -/
def stock_rec_of (data : List PerfRow) (row : ShopPerfRow) : Option StockRec :=
  if row.monthly_quantity * (3/2) < row.predicted_quantity then
    some { shop_id := row.shop_id, product_id := row.product_id,
           product_name := perf_product_name data row.product_id,
           type := "increase_stock", current_avg := row.monthly_quantity,
           predicted := row.predicted_quantity,
           reason := "Expected significant demand increase" }
  else if row.predicted_quantity < row.monthly_quantity * (1/2) then
    some { shop_id := row.shop_id, product_id := row.product_id,
           product_name := perf_product_name data row.product_id,
           type := "decrease_stock", current_avg := row.monthly_quantity,
           predicted := row.predicted_quantity,
           reason := "Expected demand decrease" }
  else none

/-- _generate_shopkeeper_recommendations (lines 420-466): iterates the distinct
shops of the aggregated table and, within each shop, its aggregated rows in
table order, emitting the stock recommendations. -/
def generate_shopkeeper_recommendations (data : List PerfRow) : List StockRec :=
  (((shop_performance data).map (·.shop_id)).dedup).flatMap (fun sh =>
    ((shop_performance data).filter (fun row => row.shop_id == sh)).filterMap
      (stock_rec_of data))

/-- Concrete shopkeeper data used by the C7 witness: at shop S1 product P1 is
predicted at twice its average, P2 at two fifths of it, and P3 flat. -/
def perfData : List PerfRow :=
  [⟨"S1", "P1", "Cola", 10, 20⟩, ⟨"S1", "P2", "Chips", 10, 4⟩,
   ⟨"S1", "P3", "Bread", 10, 10⟩]

/-! ## Product owner recommendations
(product_performance.py, get_recommendations lines 289-302 and
_generate_product_owner_recommendations lines 354-418) -/

/-- One row of ProductPerformanceAnalyzer.monthly_data restricted to the columns
the premium product-owner generator reads. -/
structure CityRow where
  product_id : String
  product_name : String
  category : String
  city : String
  monthly_quantity : ℚ
  monthly_revenue : ℚ
deriving DecidableEq

/-- One row of the product_city_perf aggregate (lines 363-366), restricted to
the mean monthly_quantity - the only aggregate column read afterwards (the std
and revenue aggregates are computed but never used). -/
structure CityPerf where
  product_id : String
  city : String
  qmean : ℚ
deriving DecidableEq

/-- The groupby key of product_city_perf. -/
def cityKey (d : CityRow) : String × String := (d.product_id, d.city)

/-- product_city_perf (lines 363-366): one row per distinct (product_id, city)
with the mean monthly_quantity. -/
def product_city_perf (data : List CityRow) : List CityPerf :=
  ((data.map cityKey).dedup).map (fun k =>
    { product_id := k.1, city := k.2,
      qmean :=
        ((data.filter (fun d => cityKey d == k)).map (·.monthly_quantity)).sum /
          (((data.filter (fun d => cityKey d == k)).length : ℚ)) })

/-- One row of the product_competition aggregate (lines 369-372): a
(category, city) group with its distinct-product count and total revenue. -/
structure CompetitionRow where
  category : String
  city : String
  product_count : Nat
  revenue : ℚ
deriving DecidableEq

/-- The groupby key of product_competition. -/
def compKey (d : CityRow) : String × String := (d.category, d.city)

/-- product_competition (lines 369-372). -/
def product_competition (data : List CityRow) : List CompetitionRow :=
  ((data.map compKey).dedup).map (fun k =>
    { category := k.1, city := k.2,
      product_count := (((data.filter (fun d => compKey d == k)).map
        (·.product_id)).dedup).length,
      revenue :=
        ((data.filter (fun d => compKey d == k)).map (·.monthly_revenue)).sum })

/-- The category lookup of lines 385-387: first monthly_data row of the
product. -/
def category_of (data : List CityRow) (pid : String) : String :=
  (((data.filter (fun d => d.product_id == pid)).map (·.category)).head?).getD ""

/-- The product_name lookup of lines 395-397. -/
def city_product_name (data : List CityRow) (pid : String) : String :=
  (((data.filter (fun d => d.product_id == pid)).map
    (·.product_name)).head?).getD ""

/-- The sort key of line 378: mean monthly_quantity, descending. -/
def byDescQ (a b : CityPerf) : Prop := b.qmean ≤ a.qmean

instance : DecidableRel byDescQ :=
  fun a b => inferInstanceAs (Decidable (b.qmean ≤ a.qmean))

instance : IsTotal CityPerf byDescQ := ⟨fun a b => le_total b.qmean a.qmean⟩

instance : IsTrans CityPerf byDescQ :=
  ⟨fun _ _ _ hab hbc => le_trans hbc hab⟩

/-- The nlargest sort key of line 405: total revenue, descending. -/
def byDescRevenue (a b : CompetitionRow) : Prop := b.revenue ≤ a.revenue

instance : DecidableRel byDescRevenue :=
  fun a b => inferInstanceAs (Decidable (b.revenue ≤ a.revenue))

/-- The per-product city table of lines 376-378: the city means of the product,
sorted by mean monthly_quantity descending. -/
def sorted_city_perf (data : List CityRow) (pid : String) : List CityPerf :=
  List.insertionSort byDescQ
    ((product_city_perf data).filter (fun c => c.product_id == pid))

/-- One premium product-owner recommendation record (lines 393-412);
generated_at, a wall-clock timestamp, is omitted. -/
structure OwnerRec where
  product_id : String
  product_name : String
  type : String
  best_performing_city : String
  best_city_avg_sales : ℚ
  worst_performing_city : String
  worst_city_avg_sales : ℚ
  competitor_count : Nat
  top_competitors : List CompetitionRow
deriving DecidableEq

/-- The per-product emission of lines 375-412: products with more than one city
row get a premium_analysis record whose best and worst cities are the first and
last rows of the descending sort (iloc[0] and iloc[-1]), with the competitor
table filtered to the product's category. -/
def owner_rec_of (data : List CityRow) (pid : String) : Option OwnerRec :=
  if 1 < (sorted_city_perf data pid).length then
    match (sorted_city_perf data pid).head?,
        (sorted_city_perf data pid).getLast? with
    | some best, some worst =>
        some { product_id := pid,
               product_name := city_product_name data pid,
               type := "premium_analysis",
               best_performing_city := best.city,
               best_city_avg_sales := best.qmean,
               worst_performing_city := worst.city,
               worst_city_avg_sales := worst.qmean,
               competitor_count := ((product_competition data).filter
                 (fun c => c.category == category_of data pid)).length,
               top_competitors := (List.insertionSort byDescRevenue
                 ((product_competition data).filter
                   (fun c => c.category == category_of data pid))).take 3 }
    | _, _ => none
  else none

/-- _generate_product_owner_recommendations (lines 354-418): raises
PermissionError unless the subscription is premium, otherwise emits the per-
product premium records (iterating the distinct products of product_city_perf)
tagged with the premium subscription level. -/
def generate_product_owner_recommendations (current_subscription : String)
    (data : List CityRow) : Except String (List OwnerRec × String) :=
  if current_subscription ≠ "premium" then
    Except.error "Premium features require subscription upgrade"
  else
    Except.ok ((((product_city_perf data).map (·.product_id)).dedup).filterMap
      (owner_rec_of data), "premium")

/-- Concrete data for the C8 witness: product P1 sells in two cities. -/
def cityData : List CityRow :=
  [⟨"P1", "Cola", "drinks", "Kathmandu", 10, 100⟩,
   ⟨"P1", "Cola", "drinks", "Pokhara", 20, 200⟩,
   ⟨"P2", "Chips", "snacks", "Kathmandu", 5, 50⟩]

/-- A concrete pipeline used by witnesses: two months of history for product P1 at
shop S1 and nothing else; the regressor is the constant function 7. -/
def witnessPipeline : Pipeline where
  is_trained := true
  monthly_data := [⟨"P1", "S1", 0, 12, "drinks"⟩, ⟨"P1", "S1", 1, 18, "drinks"⟩]
  products := [⟨"P1", "Cola", "drinks", 10⟩, ⟨"P2", "Chips", "snacks", 5⟩]
  model := fun _ => 7

/-- The monthly table produced by the concrete transactions of the C6
counterexample: one transaction of quantity 1 in each of four consecutive
months for the single pair (P1, S1). -/
def c6txns : List Transaction :=
  [⟨"P1", "S1", 0, 1, "drinks"⟩, ⟨"P1", "S1", 1, 1, "drinks"⟩,
   ⟨"P1", "S1", 2, 1, "drinks"⟩, ⟨"P1", "S1", 3, 1, "drinks"⟩]

/-- The monthly aggregate of c6txns: four singleton groups. -/
def c6monthly : List MRow :=
  [⟨"P1", "S1", 0, 1, "drinks"⟩, ⟨"P1", "S1", 1, 1, "drinks"⟩,
   ⟨"P1", "S1", 2, 1, "drinks"⟩, ⟨"P1", "S1", 3, 1, "drinks"⟩]

/-! ## Theorems -/

/-- Every branch of the cold-start fallback returns a non-negative prediction. -/
lemma predict_for_new_combination_nonneg (pl : Pipeline) (p s : String) :
    0 ≤ (predict_for_new_combination pl p s).predicted_quantity := by
  rcases hh : (pl.products.filter (fun x => x.product_id == p)).head? with - | pinfo
  · simp [predict_for_new_combination, hh]
  · rcases h1 : tier_product_avg pl p with - | q1
    · rcases h2 : tier_category_shop_avg pl pinfo.category s with - | q2
      · rcases h3 : tier_shop_avg pl s with - | q3
        · rcases h4 : tier_category_avg pl pinfo.category with - | q4
          · simp [predict_for_new_combination, hh, h1, h2, h3, h4, le_max_left]
          · simp [predict_for_new_combination, hh, h1, h2, h3, h4, le_max_left]
        · simp [predict_for_new_combination, hh, h1, h2, h3, le_max_left]
      · simp [predict_for_new_combination, hh, h1, h2, le_max_left]
    · simp [predict_for_new_combination, hh, h1, le_max_left]

/-- Every branch of the cold-start fallback reports zero historical points. -/
lemma predict_for_new_combination_points (pl : Pipeline) (p s : String) :
    (predict_for_new_combination pl p s).historical_points = 0 := by
  rcases hh : (pl.products.filter (fun x => x.product_id == p)).head? with - | pinfo
  · simp [predict_for_new_combination, hh]
  · rcases h1 : tier_product_avg pl p with - | q1
    · rcases h2 : tier_category_shop_avg pl pinfo.category s with - | q2
      · rcases h3 : tier_shop_avg pl s with - | q3
        · rcases h4 : tier_category_avg pl pinfo.category with - | q4
          · simp [predict_for_new_combination, hh, h1, h2, h3, h4]
          · simp [predict_for_new_combination, hh, h1, h2, h3, h4]
        · simp [predict_for_new_combination, hh, h1, h2, h3]
      · simp [predict_for_new_combination, hh, h1, h2]
    · simp [predict_for_new_combination, hh, h1]

/-- Every successful prediction is non-negative (helper for several claims). -/
lemma predictOk_nonneg (pl : Pipeline) (p s : String) (r : PredictionResult)
    (h : predict_for_product_shop pl p s = Except.ok r) :
    0 ≤ r.predicted_quantity := by
  unfold predict_for_product_shop at h
  split at h
  · cases h
  · split at h
    · simp only [Except.ok.injEq] at h
      subst h
      exact predict_for_new_combination_nonneg pl p s
    · simp only [Except.ok.injEq] at h
      subst h
      exact le_max_left _ _

/-- When the pipeline is trained the prediction never raises. -/
lemma predictOk_of_trained (pl : Pipeline) (p s : String)
    (htr : pl.is_trained = true) :
    ∃ r, predict_for_product_shop pl p s = Except.ok r := by
  unfold predict_for_product_shop
  rw [if_neg (by simp [htr])]
  split
  · exact ⟨_, rfl⟩
  · exact ⟨_, rfl⟩

/-- C1: for a (product_id, shop_id) pair with no rows in the feature table and a
product present in the catalog, predict_for_product_shop falls through the
fallback tiers in strict priority order, stopping at the first tier whose average
is defined: (1) the product's mean across all shops, confidence medium; (2) the
category mean at this shop, confidence low; (3) the shop's mean over all products,
confidence low; (4) the category mean across all shops, confidence very_low;
(5) the global mean, or the fixed default 10 when even that is undefined,
confidence very_low - each tier with its own identifying note. -/
theorem predict_cold_start_fallback_order
    (pl : Pipeline) (p s : String) (product_info : Product)
    (htr : pl.is_trained = true)
    (hpair : pl.monthly_data.filter
      (fun r => r.product_id == p && r.shop_id == s) = [])
    (hprod : (pl.products.filter (fun x => x.product_id == p)).head? =
      some product_info) :
    ∃ r, predict_for_product_shop pl p s = Except.ok r ∧
      r.historical_points = 0 ∧
      (∀ q, tier_product_avg pl p = some q →
        r = { predicted_quantity := max 0 q, last_actual := 0,
              last_date := "No historical data", confidence := "medium",
              historical_points := 0,
              note := some "Based on average sales of this product" }) ∧
      (tier_product_avg pl p = none →
        ∀ q, tier_category_shop_avg pl product_info.category s = some q →
        r = { predicted_quantity := max 0 q, last_actual := 0,
              last_date := "No historical data", confidence := "low",
              historical_points := 0,
              note := some ("Based on " ++ product_info.category ++
                " sales at this shop") }) ∧
      (tier_product_avg pl p = none →
        tier_category_shop_avg pl product_info.category s = none →
        ∀ q, tier_shop_avg pl s = some q →
        r = { predicted_quantity := max 0 q, last_actual := 0,
              last_date := "No historical data", confidence := "low",
              historical_points := 0,
              note := some "Based on average sales at this shop" }) ∧
      (tier_product_avg pl p = none →
        tier_category_shop_avg pl product_info.category s = none →
        tier_shop_avg pl s = none →
        ∀ q, tier_category_avg pl product_info.category = some q →
        r = { predicted_quantity := max 0 q, last_actual := 0,
              last_date := "No historical data", confidence := "very_low",
              historical_points := 0,
              note := some ("Based on " ++ product_info.category ++
                " category average") }) ∧
      (tier_product_avg pl p = none →
        tier_category_shop_avg pl product_info.category s = none →
        tier_shop_avg pl s = none →
        tier_category_avg pl product_info.category = none →
        ∀ q, tier_overall_avg pl = some q →
        r = { predicted_quantity := max 0 q, last_actual := 0,
              last_date := "No historical data", confidence := "very_low",
              historical_points := 0,
              note := some "Based on overall average" }) ∧
      (tier_product_avg pl p = none →
        tier_category_shop_avg pl product_info.category s = none →
        tier_shop_avg pl s = none →
        tier_category_avg pl product_info.category = none →
        tier_overall_avg pl = none →
        r = { predicted_quantity := 10, last_actual := 0,
              last_date := "No historical data", confidence := "very_low",
              historical_points := 0,
              note := some "Based on overall average" }) := by
  refine ⟨predict_for_new_combination pl p s, ?_, ?_, ?_, ?_, ?_, ?_, ?_, ?_⟩
  · unfold predict_for_product_shop
    rw [if_neg (by simp [htr])]
    have hh : historical_data pl p s = [] := by
      simp [historical_data, hpair]
    rw [hh]
    rfl
  · exact predict_for_new_combination_points pl p s
  · intro q h1
    simp [predict_for_new_combination, hprod, h1]
  · intro h1 q h2
    simp [predict_for_new_combination, hprod, h1, h2]
  · intro h1 h2 q h3
    simp [predict_for_new_combination, hprod, h1, h2, h3]
  · intro h1 h2 h3 q h4
    simp [predict_for_new_combination, hprod, h1, h2, h3, h4]
  · intro h1 h2 h3 h4 q h5
    simp [predict_for_new_combination, hprod, h1, h2, h3, h4, h5]
  · intro h1 h2 h3 h4 h5
    simp [predict_for_new_combination, hprod, h1, h2, h3, h4, h5]

/-- Witness for C1: in the concrete pipeline the pair (P1, S2) has no history, P1
is in the catalog, and tier 1 fires with the product mean (12 + 18) / 2 = 15. -/
theorem predict_cold_start_fallback_order_witness :
    predict_for_product_shop witnessPipeline "P1" "S2" = Except.ok
      { predicted_quantity := max 0 15, last_actual := 0,
        last_date := "No historical data", confidence := "medium",
        historical_points := 0,
        note := some "Based on average sales of this product" } := by
  obtain ⟨r, hok, -, h1, -⟩ := predict_cold_start_fallback_order
    witnessPipeline "P1" "S2" ⟨"P1", "Cola", "drinks", 10⟩
    rfl (by decide) (by decide)
  rw [hok, h1 15 (by simp [tier_product_avg, seriesMean, witnessPipeline]; norm_num)]

/-- C2: predict_for_product_shop raises exactly when the model is not trained;
once trained it always returns a result, and a product id absent from the catalog
(with no feature rows for the pair) yields the default estimate with confidence
very_low and zero historical points. -/
theorem predict_error_iff_untrained (pl : Pipeline) (p s : String) :
    (predict_for_product_shop pl p s =
        Except.error "Model not trained. Call train_model() first." ↔
      pl.is_trained = false) ∧
    (pl.is_trained = true →
      ∃ r, predict_for_product_shop pl p s = Except.ok r) ∧
    (pl.is_trained = true →
      pl.products.filter (fun x => x.product_id == p) = [] →
      pl.monthly_data.filter (fun r => r.product_id == p && r.shop_id == s) = [] →
      predict_for_product_shop pl p s = Except.ok
        { predicted_quantity := 10, last_actual := 0, last_date := "No data",
          confidence := "very_low", historical_points := 0,
          note := some "Product not found in catalog - using default estimate" }) := by
  refine ⟨⟨?_, ?_⟩, fun h => predictOk_of_trained pl p s h, ?_⟩
  · intro h
    by_contra hfalse
    have htr : pl.is_trained = true := by
      cases hb : pl.is_trained
      · exact absurd hb hfalse
      · rfl
    obtain ⟨r, hr⟩ := predictOk_of_trained pl p s htr
    rw [hr] at h
    cases h
  · intro h
    unfold predict_for_product_shop
    rw [if_pos h]
  · intro htr hprod hpair
    unfold predict_for_product_shop
    rw [if_neg (by simp [htr])]
    have hh : historical_data pl p s = [] := by
      simp [historical_data, hpair]
    rw [hh]
    have hhead : (pl.products.filter (fun x => x.product_id == p)).head? = none := by
      rw [hprod]
      rfl
    simp [predict_for_new_combination, hhead]

/-- Witness for C2: the theorem applied to the concrete pipeline, with its trained
and untrained variants and the uncatalogued product P9. -/
theorem predict_error_iff_untrained_witness :
    ({ witnessPipeline with is_trained := false } : Pipeline).is_trained = false ∧
    (∃ r, predict_for_product_shop witnessPipeline "P1" "S1" = Except.ok r) ∧
    predict_for_product_shop witnessPipeline "P9" "S7" = Except.ok
      { predicted_quantity := 10, last_actual := 0, last_date := "No data",
        confidence := "very_low", historical_points := 0,
        note := some "Product not found in catalog - using default estimate" } :=
  ⟨(predict_error_iff_untrained { witnessPipeline with is_trained := false }
      "P1" "S1").1.mp rfl,
   (predict_error_iff_untrained witnessPipeline "P1" "S1").2.1 rfl,
   (predict_error_iff_untrained witnessPipeline "P9" "S7").2.2 rfl
     (by decide) (by decide)⟩

/-- C3: predicted quantities are non-negative on every prediction path and every
scenario adjustment. -/
theorem predicted_quantity_nonneg :
    (∀ (pl : Pipeline) (p s : String) (r : PredictionResult),
      predict_for_product_shop pl p s = Except.ok r →
        0 ≤ r.predicted_quantity) ∧
    (∀ (pl : Pipeline) (p s : String) (price_change marketing_boost : ℚ)
      (season : String),
      0 ≤ (run_scenario pl p s price_change marketing_boost season).predicted) := by
  refine ⟨predictOk_nonneg, ?_⟩
  intro pl p s pc mb season
  unfold run_scenario
  split
  · simp
  · exact le_max_left _ _

/-- Witness for C3: the theorem applied at a concrete historical prediction and a
concrete scenario. -/
theorem predicted_quantity_nonneg_witness :
    0 ≤ ({ predicted_quantity := 7, last_actual := 18, last_date := toString 1,
           confidence := "high", historical_points := 2,
           note := none } : PredictionResult).predicted_quantity ∧
    0 ≤ (run_scenario witnessPipeline "P1" "S1" (1/10) 5 "holiday").predicted :=
  ⟨predicted_quantity_nonneg.1 witnessPipeline "P1" "S1" _ (by
      simp [predict_for_product_shop, historical_data, witnessPipeline,
        List.insertionSort, List.orderedInsert]),
   predicted_quantity_nonneg.2 witnessPipeline "P1" "S1" (1/10) 5 "holiday"⟩

/-- C4: run_scenario with price_change 0, marketing_boost 3 and season normal is
neutral - the adjusted prediction equals the base prediction and the reported
change is zero. -/
theorem run_scenario_neutral (pl : Pipeline) (p s : String)
    (r : PredictionResult)
    (h : predict_for_product_shop pl p s = Except.ok r) :
    run_scenario pl p s 0 3 "normal" =
      { original := r.predicted_quantity, predicted := r.predicted_quantity,
        change := 0, change_pct := 0, confidence := some r.confidence,
        note := some (r.note.getD ""), error := none } := by
  have hnn : 0 ≤ r.predicted_quantity := predictOk_nonneg pl p s r h
  unfold run_scenario
  rw [h]
  simp only [seasonal_multiplier]
  norm_num [max_eq_right hnn]

/-- Witness for C4: the theorem applied to the concrete pipeline at (P1, S1),
whose base prediction is 7. -/
theorem run_scenario_neutral_witness :
    run_scenario witnessPipeline "P1" "S1" 0 3 "normal" =
      { original := (7 : ℚ), predicted := 7, change := 0, change_pct := 0,
        confidence := some "high", note := some "", error := none } := by
  have := run_scenario_neutral witnessPipeline "P1" "S1"
    { predicted_quantity := 7, last_actual := 18, last_date := toString 1,
      confidence := "high", historical_points := 2, note := none } (by
        simp [predict_for_product_shop, historical_data, witnessPipeline,
          List.insertionSort, List.orderedInsert])
  simpa using this

/-- The filter of a list splits around the element at index i when that element
satisfies the predicate. -/
lemma filter_decomp {α : Type} (P : α → Bool) (rows : List α) (i : Nat) (r : α)
    (h : rows[i]? = some r) (hP : P r = true) :
    rows.filter P =
      (rows.take i).filter P ++ r :: (rows.drop (i + 1)).filter P := by
  obtain ⟨hi, hget⟩ := List.getElem?_eq_some.mp h
  have hdrop : rows.drop i = r :: rows.drop (i + 1) := by
    rw [← List.getElem_cons_drop rows i hi, hget]
  conv_lhs => rw [← List.take_append_drop i rows]
  rw [List.filter_append, hdrop, List.filter_cons, if_pos hP]

/-- The element at index j of a filtered list sits at some table index whose
prefix contains exactly j matching rows. -/
lemma getElem?_filter_index {α : Type} (P : α → Bool) :
    ∀ (rows : List α) (j : Nat) (r : α), (rows.filter P)[j]? = some r →
      ∃ i, rows[i]? = some r ∧ ((rows.take i).filter P).length = j := by
  intro rows
  induction rows with
  | nil =>
    intro j r h
    simp at h
  | cons x xs ih =>
    intro j r h
    by_cases hP : P x
    · rw [List.filter_cons, if_pos hP] at h
      cases j with
      | zero =>
        rw [List.getElem?_cons_zero, Option.some.injEq] at h
        exact ⟨0, by simp [h], by simp⟩
      | succ j =>
        rw [List.getElem?_cons_succ] at h
        obtain ⟨i, hi, hl⟩ := ih j r h
        refine ⟨i + 1, by simpa using hi, ?_⟩
        simp [List.filter_cons, hP, hl]
    · rw [List.filter_cons, if_neg hP] at h
      obtain ⟨i, hi, hl⟩ := ih j r h
      refine ⟨i + 1, by simpa using hi, ?_⟩
      simp [List.filter_cons, hP, hl]

/-- Membership in the feature table, characterised inside the row's own
(product_id, shop_id) group: a feature row is produced exactly for the rows at
position j ≥ 3 of their group, with the three lags equal to the quantities of the
group rows at positions j-1, j-2 and j-3. -/
lemma create_features_mem_iff (rows : List MRow) (fr : FeatureRow) :
    fr ∈ create_features rows ↔
      ∃ j, 3 ≤ j ∧
        (rows.filter (fun x => sameGroup x fr.row))[j]? = some fr.row ∧
        ((rows.filter (fun x => sameGroup x fr.row))[j - 1]?).map
          (·.monthly_quantity) = some fr.last_month_qty ∧
        ((rows.filter (fun x => sameGroup x fr.row))[j - 2]?).map
          (·.monthly_quantity) = some fr.last_2_months_qty ∧
        ((rows.filter (fun x => sameGroup x fr.row))[j - 3]?).map
          (·.monthly_quantity) = some fr.last_3_months_qty := by
  obtain ⟨frow, f1, f2, f3⟩ := fr
  simp only
  constructor
  · intro hmem
    rw [create_features, List.mem_filterMap] at hmem
    obtain ⟨i, hirange, hmatch⟩ := hmem
    rw [List.mem_range] at hirange
    have hr : rows[i]? = some rows[i] := List.getElem?_eq_getElem hirange
    rcases hl : lagsAt rows i with - | abc
    · rw [hr, hl] at hmatch
      simp at hmatch
    · obtain ⟨a, b, c⟩ := abc
      rw [hr, hl] at hmatch
      simp only [Option.some.injEq, FeatureRow.mk.injEq] at hmatch
      obtain ⟨hrow, ha, hb, hc⟩ := hmatch
      subst hrow ha hb hc
      unfold lagsAt at hl
      rw [hr] at hl
      simp only at hl
      rcases h0 : ((rows.take i).filter
          (fun x => sameGroup x rows[i])).reverse[0]? with - | pa
      · rw [h0] at hl
        simp at hl
      rcases h1 : ((rows.take i).filter
          (fun x => sameGroup x rows[i])).reverse[1]? with - | pb
      · rw [h0, h1] at hl
        simp at hl
      rcases h2 : ((rows.take i).filter
          (fun x => sameGroup x rows[i])).reverse[2]? with - | pc
      · rw [h0, h1, h2] at hl
        simp at hl
      rw [h0, h1, h2] at hl
      simp only [Option.some.injEq, Prod.mk.injEq] at hl
      obtain ⟨ea, eb, ec⟩ := hl
      have hlen2 : 2 < ((rows.take i).filter
          (fun x => sameGroup x rows[i])).length := by
        have := (List.getElem?_eq_some.mp h2).1
        simpa using this
      set A := (rows.take i).filter (fun x => sameGroup x rows[i]) with hA
      have hg := filter_decomp (fun x => sameGroup x rows[i]) rows i rows[i]
        hr (by simp [sameGroup])
      rw [← hA] at hg
      refine ⟨A.length, by omega, ?_, ?_, ?_, ?_⟩
      · rw [hg, List.getElem?_append]
        simp
      · rw [hg, List.getElem?_append, if_pos (by omega)]
        have e0 : A.reverse[0]? = A[A.length - 1 - 0]? :=
          List.getElem?_reverse (by omega)
        rw [show A.length - 1 = A.length - 1 - 0 by omega, ← e0, h0]
        simp [ea]
      · rw [hg, List.getElem?_append, if_pos (by omega)]
        have e1 : A.reverse[1]? = A[A.length - 1 - 1]? :=
          List.getElem?_reverse (by omega)
        rw [show A.length - 2 = A.length - 1 - 1 by omega, ← e1, h1]
        simp [eb]
      · rw [hg, List.getElem?_append, if_pos (by omega)]
        have e2 : A.reverse[2]? = A[A.length - 1 - 2]? :=
          List.getElem?_reverse (by omega)
        rw [show A.length - 3 = A.length - 1 - 2 by omega, ← e2, h2]
        simp [ec]
  · rintro ⟨j, hj3, hgj, h1, h2, h3⟩
    obtain ⟨i, hri, hlen⟩ := getElem?_filter_index _ rows j frow hgj
    have hg := filter_decomp (fun x => sameGroup x frow) rows i frow hri
      (by simp [sameGroup])
    set A := (rows.take i).filter (fun x => sameGroup x frow) with hA
    rw [hg, List.getElem?_append, if_pos (by omega)] at h1
    rw [hg, List.getElem?_append, if_pos (by omega)] at h2
    rw [hg, List.getElem?_append, if_pos (by omega)] at h3
    rcases hpa : A[j - 1]? with - | pa
    · rw [hpa] at h1
      simp at h1
    rcases hpb : A[j - 2]? with - | pb
    · rw [hpb] at h2
      simp at h2
    rcases hpc : A[j - 3]? with - | pc
    · rw [hpc] at h3
      simp at h3
    rw [hpa] at h1
    rw [hpb] at h2
    rw [hpc] at h3
    simp only [Option.map_some', Option.some.injEq] at h1 h2 h3
    have hirange : i < rows.length := (List.getElem?_eq_some.mp hri).1
    rw [create_features, List.mem_filterMap]
    refine ⟨i, List.mem_range.mpr hirange, ?_⟩
    rw [hri]
    have hlags : lagsAt rows i = some (f1, f2, f3) := by
      unfold lagsAt
      rw [hri]
      simp only
      have e0 : A.reverse[0]? = A[A.length - 1 - 0]? :=
        List.getElem?_reverse (by omega)
      have e1 : A.reverse[1]? = A[A.length - 1 - 1]? :=
        List.getElem?_reverse (by omega)
      have e2 : A.reverse[2]? = A[A.length - 1 - 2]? :=
        List.getElem?_reverse (by omega)
      rw [← hA, e0, e1, e2,
        show A.length - 1 - 0 = j - 1 by omega,
        show A.length - 1 - 1 = j - 2 by omega,
        show A.length - 1 - 2 = j - 3 by omega,
        hpa, hpb, hpc]
      simp [h1, h2, h3]
    rw [hlags]

/-- Splitting a mapped sum along a Boolean predicate. -/
lemma sum_map_filter_not {α : Type} (l : List α) (P : α → Bool) (f : α → ℚ) :
    ((l.filter P).map f).sum + ((l.filter (fun x => !(P x))).map f).sum =
      (l.map f).sum := by
  induction l with
  | nil => simp
  | cons x xs ih =>
    cases h : P x <;> simp [List.filter_cons, h] <;> linarith [ih]

/-- Summing group sums over a complete, duplicate-free key list equals the total
sum. -/
lemma sum_fiberwise_keys {α κ : Type} [BEq κ] [LawfulBEq κ] :
    ∀ (keys : List κ) (l : List α) (key : α → κ) (f : α → ℚ),
      keys.Nodup → (∀ x ∈ l, key x ∈ keys) →
      (keys.map (fun k => ((l.filter (fun x => key x == k)).map f).sum)).sum =
        (l.map f).sum := by
  intro keys
  induction keys with
  | nil =>
    intro l key f _ hcov
    have hl : l = [] := by
      cases l with
      | nil => rfl
      | cons x xs => exact absurd (hcov x (by simp)) (by simp)
    subst hl
    simp
  | cons k ks ih =>
    intro l key f hnd hcov
    rw [List.map_cons, List.sum_cons]
    have hrest : ∀ k' ∈ ks,
        l.filter (fun x => key x == k') =
          (l.filter (fun x => !(key x == k))).filter
            (fun x => key x == k') := by
      intro k' hk'
      rw [List.filter_filter]
      apply List.filter_congr
      intro x hx
      cases hxk : key x == k'
      · simp
      · have hkx : key x = k' := by simpa using hxk
        have hne : k' ≠ k := by
          rintro rfl
          exact (List.nodup_cons.mp hnd).1 hk'
        simp [hkx, hne]
    have hmaps :
        (ks.map (fun k' =>
          ((l.filter (fun x => key x == k')).map f).sum)).sum =
        (ks.map (fun k' =>
          (((l.filter (fun x => !(key x == k))).filter
            (fun x => key x == k')).map f).sum)).sum := by
      congr 1
      apply List.map_congr_left
      intro k' hk'
      rw [hrest k' hk']
    have hcov' : ∀ x ∈ l.filter (fun x => !(key x == k)), key x ∈ ks := by
      intro x hx
      obtain ⟨hxl, hxk⟩ := List.mem_filter.mp hx
      have hx2 := hcov x hxl
      rw [List.mem_cons] at hx2
      rcases hx2 with hkk | hkk
      · simp [hkk] at hxk
      · exact hkk
    rw [hmaps, ih (l.filter (fun x => !(key x == k))) key f
      (List.nodup_cons.mp hnd).2 hcov']
    exact sum_map_filter_not l (fun x => key x == k) f

/-- C6 counterexample: after create_features rewrites the pipeline's monthly
table, the dropna discards the first three months of the (P1, S1) group, so the
sum of monthly_quantity over the table that the pipeline ends up holding is 1
while the raw transactions for the pair sum to 4. -/
theorem monthly_conservation_after_features_counterexample :
    ¬ ((((create_features (prepare_monthly_data c6txns)).filter
          (fun fr => fr.row.product_id == "P1" && fr.row.shop_id == "S1")).map
        (fun fr => fr.row.monthly_quantity)).sum =
      ((c6txns.filter
          (fun t => t.product_id == "P1" && t.shop_id == "S1")).map
        (·.quantity)).sum) := by
  have h1 : prepare_monthly_data c6txns = c6monthly := by
    simp [prepare_monthly_data, c6txns, c6monthly, txnKey,
      List.dedup_cons_of_not_mem]
  have h2 : create_features c6monthly =
      [{ row := ⟨"P1", "S1", 3, 1, "drinks"⟩, last_month_qty := 1,
         last_2_months_qty := 1, last_3_months_qty := 1 }] := by
    decide
  rw [h1, h2]
  simp [c6txns]
  norm_num

/-- C6 amended: the monthly table as produced by prepare_monthly_data (before
create_features drops lag-less rows from the same attribute) conserves
quantities - for every pair the monthly_quantity values sum to the raw
transaction quantities of that pair - and is uniquely keyed by
(product_id, shop_id, year_month). -/
theorem prepare_monthly_data_conservation (ts : List Transaction)
    (p s : String) :
    (((prepare_monthly_data ts).filter
        (fun r => r.product_id == p && r.shop_id == s)).map
      (·.monthly_quantity)).sum =
      ((ts.filter (fun t => t.product_id == p && t.shop_id == s)).map
        (·.quantity)).sum ∧
    List.Pairwise (fun a b => ¬(a.product_id = b.product_id ∧
      a.shop_id = b.shop_id ∧ a.year_month = b.year_month))
      (prepare_monthly_data ts) := by
  constructor
  · unfold prepare_monthly_data
    rw [List.filter_map, List.map_map]
    have hpred : ∀ k ∈ (ts.map txnKey).dedup.filter
        (fun k => k.1 == p && k.2.1 == s),
        ts.filter (fun t => txnKey t == k) =
          (ts.filter (fun t => t.product_id == p && t.shop_id == s)).filter
            (fun t => txnKey t == k) := by
      intro k hk
      obtain ⟨-, hkp⟩ := List.mem_filter.mp hk
      rw [List.filter_filter]
      apply List.filter_congr
      intro t ht
      cases htk : txnKey t == k
      · simp
      · have : txnKey t = k := by simpa using htk
        subst this
        simp only [txnKey] at hkp ⊢
        simp only [Bool.and_eq_true, beq_iff_eq] at hkp
        simp [hkp.1, hkp.2]
    have hfib := sum_fiberwise_keys
      ((ts.map txnKey).dedup.filter (fun k => k.1 == p && k.2.1 == s))
      (ts.filter (fun t => t.product_id == p && t.shop_id == s))
      txnKey (·.quantity)
      ((List.nodup_dedup _).filter _)
      (by
        intro x hx
        obtain ⟨hxl, hxp⟩ := List.mem_filter.mp hx
        apply List.mem_filter.mpr
        refine ⟨List.mem_dedup.mpr (List.mem_map.mpr ⟨x, hxl, rfl⟩), ?_⟩
        simpa [txnKey] using hxp)
    rw [← hfib]
    congr 1
    apply List.map_congr_left
    intro k hk
    simp only [Function.comp_apply]
    rw [hpred k hk]
  · unfold prepare_monthly_data
    refine List.Pairwise.map _ ?_ (List.nodup_dedup (ts.map txnKey))
    intro a b hab hcontra
    obtain ⟨h1, h2, h3⟩ := hcontra
    apply hab
    exact Prod.ext h1 (Prod.ext h2 h3)

/-- C5 counterexample: in a table whose (P1, S1) group has months 0, 1, 2 and 4
(month 3 missing), create_features keeps the row of month 4 and takes its
last_month_qty from month 2 - the previous row of the group, not the immediately
preceding calendar month, which has no row at all.  The claimed property fails at
this table. -/
theorem create_features_calendar_counterexample :
    create_features gapTable =
      [{ row := ⟨"P1", "S1", 4, 40, "drinks"⟩, last_month_qty := 30,
         last_2_months_qty := 20, last_3_months_qty := 10 }] ∧
    ¬ ∀ fr ∈ create_features gapTable, ∃ r ∈ gapTable,
        r.product_id = fr.row.product_id ∧ r.shop_id = fr.row.shop_id ∧
        r.year_month + 1 = fr.row.year_month ∧
        fr.last_month_qty = r.monthly_quantity := by
  decide

/-- C5 amended: a feature row exists exactly for the rows at position j ≥ 3 of
their (product_id, shop_id) group in table order, with the three lags equal to
the quantities of the group rows at positions j-1, j-2, j-3 (so lags come from
the previous rows of the same group - the most recent earlier months with data -
never from another group, and rows lacking a lag are dropped); when the group's
months are consecutive, the lags are exactly the quantities of the calendar
months 1, 2 and 3 back. -/
theorem create_features_lag_integrity :
    (∀ (rows : List MRow) (fr : FeatureRow),
      fr ∈ create_features rows ↔
        ∃ j, 3 ≤ j ∧
          (rows.filter (fun x => sameGroup x fr.row))[j]? = some fr.row ∧
          ((rows.filter (fun x => sameGroup x fr.row))[j - 1]?).map
            (·.monthly_quantity) = some fr.last_month_qty ∧
          ((rows.filter (fun x => sameGroup x fr.row))[j - 2]?).map
            (·.monthly_quantity) = some fr.last_2_months_qty ∧
          ((rows.filter (fun x => sameGroup x fr.row))[j - 3]?).map
            (·.monthly_quantity) = some fr.last_3_months_qty) ∧
    (∀ (rows : List MRow) (fr : FeatureRow),
      fr ∈ create_features rows →
      List.Chain' (fun a b => b.year_month = a.year_month + 1)
        (rows.filter (fun x => sameGroup x fr.row)) →
      (∃ r ∈ rows, sameGroup r fr.row = true ∧
        r.year_month + 1 = fr.row.year_month ∧
        fr.last_month_qty = r.monthly_quantity) ∧
      (∃ r ∈ rows, sameGroup r fr.row = true ∧
        r.year_month + 2 = fr.row.year_month ∧
        fr.last_2_months_qty = r.monthly_quantity) ∧
      (∃ r ∈ rows, sameGroup r fr.row = true ∧
        r.year_month + 3 = fr.row.year_month ∧
        fr.last_3_months_qty = r.monthly_quantity)) := by
  refine ⟨create_features_mem_iff, ?_⟩
  intro rows fr hmem hchain
  obtain ⟨j, hj3, hgj, h1, h2, h3⟩ := (create_features_mem_iff rows fr).mp hmem
  set g := rows.filter (fun x => sameGroup x fr.row) with hgdef
  have hjlen : j < g.length := (List.getElem?_eq_some.mp hgj).1
  have hj1 : j - 1 < g.length := by omega
  have hj2 : j - 2 < g.length := by omega
  have hj3l : j - 3 < g.length := by omega
  have gm : g.get ⟨j, hjlen⟩ = fr.row := by
    rw [List.getElem?_eq_getElem hjlen] at hgj
    simpa using hgj
  have q1 : (g.get ⟨j - 1, hj1⟩).monthly_quantity = fr.last_month_qty := by
    rw [List.getElem?_eq_getElem hj1] at h1
    simpa using h1
  have q2 : (g.get ⟨j - 2, hj2⟩).monthly_quantity = fr.last_2_months_qty := by
    rw [List.getElem?_eq_getElem hj2] at h2
    simpa using h2
  have q3 : (g.get ⟨j - 3, hj3l⟩).monthly_quantity = fr.last_3_months_qty := by
    rw [List.getElem?_eq_getElem hj3l] at h3
    simpa using h3
  have a1 : (g.get ⟨j, hjlen⟩).year_month =
      (g.get ⟨j - 1, hj1⟩).year_month + 1 := by
    have h := List.chain'_iff_get.mp hchain (j - 1) (by omega)
    simpa [show j - 1 + 1 = j from by omega] using h
  have a2 : (g.get ⟨j - 1, hj1⟩).year_month =
      (g.get ⟨j - 2, hj2⟩).year_month + 1 := by
    have h := List.chain'_iff_get.mp hchain (j - 2) (by omega)
    simpa [show j - 2 + 1 = j - 1 from by omega] using h
  have a3 : (g.get ⟨j - 2, hj2⟩).year_month =
      (g.get ⟨j - 3, hj3l⟩).year_month + 1 := by
    have h := List.chain'_iff_get.mp hchain (j - 3) (by omega)
    simpa [show j - 3 + 1 = j - 2 from by omega] using h
  have hmemfil : ∀ (k : Nat) (hk : k < g.length),
      g.get ⟨k, hk⟩ ∈ rows ∧ sameGroup (g.get ⟨k, hk⟩) fr.row = true := by
    intro k hk
    have hmg : g.get ⟨k, hk⟩ ∈ g := List.get_mem g k hk
    have hmf := List.mem_filter.mp (show g.get ⟨k, hk⟩ ∈
      List.filter (fun x => sameGroup x fr.row) rows from hmg)
    exact ⟨hmf.1, hmf.2⟩
  refine ⟨⟨g.get ⟨j - 1, hj1⟩, (hmemfil _ hj1).1, (hmemfil _ hj1).2, ?_, q1.symm⟩,
    ⟨g.get ⟨j - 2, hj2⟩, (hmemfil _ hj2).1, (hmemfil _ hj2).2, ?_, q2.symm⟩,
    ⟨g.get ⟨j - 3, hj3l⟩, (hmemfil _ hj3l).1, (hmemfil _ hj3l).2, ?_, q3.symm⟩⟩
  · rw [← gm]
    omega
  · rw [← gm]
    omega
  · rw [← gm]
    omega

/-- Witness for C5 amended: the theorem applied at the four consecutive months of
the specification's end-to-end example, whose fourth-month feature row has lags
9, 12, 10 coming from the calendar months 2, 1 and 0. -/
theorem create_features_lag_integrity_witness :
    (∃ r ∈ contigTable, sameGroup r
        (⟨⟨"P1", "S1", 3, 15, "drinks"⟩, 9, 12, 10⟩ : FeatureRow).row = true ∧
      r.year_month + 1 = 3 ∧ (9 : ℚ) = r.monthly_quantity) ∧
    (∃ r ∈ contigTable, sameGroup r
        (⟨⟨"P1", "S1", 3, 15, "drinks"⟩, 9, 12, 10⟩ : FeatureRow).row = true ∧
      r.year_month + 2 = 3 ∧ (12 : ℚ) = r.monthly_quantity) ∧
    (∃ r ∈ contigTable, sameGroup r
        (⟨⟨"P1", "S1", 3, 15, "drinks"⟩, 9, 12, 10⟩ : FeatureRow).row = true ∧
      r.year_month + 3 = 3 ∧ (10 : ℚ) = r.monthly_quantity) :=
  create_features_lag_integrity.2 contigTable
    ⟨⟨"P1", "S1", 3, 15, "drinks"⟩, 9, 12, 10⟩ (by decide)
    (by simp [contigTable, sameGroup, List.chain'_cons])

/-- The if/elif of stock_rec_of, characterised. -/
lemma stock_rec_of_eq_some (data : List PerfRow) (row : ShopPerfRow)
    (rec : StockRec) :
    stock_rec_of data row = some rec ↔
      ((row.monthly_quantity * (3/2) < row.predicted_quantity ∧
        rec = { shop_id := row.shop_id, product_id := row.product_id,
                product_name := perf_product_name data row.product_id,
                type := "increase_stock", current_avg := row.monthly_quantity,
                predicted := row.predicted_quantity,
                reason := "Expected significant demand increase" }) ∨
       (¬(row.monthly_quantity * (3/2) < row.predicted_quantity) ∧
        row.predicted_quantity < row.monthly_quantity * (1/2) ∧
        rec = { shop_id := row.shop_id, product_id := row.product_id,
                product_name := perf_product_name data row.product_id,
                type := "decrease_stock", current_avg := row.monthly_quantity,
                predicted := row.predicted_quantity,
                reason := "Expected demand decrease" })) := by
  unfold stock_rec_of
  split_ifs with h1 h2
  · simp only [Option.some.injEq]
    constructor
    · intro h
      exact Or.inl ⟨h1, h.symm⟩
    · rintro (⟨-, rfl⟩ | ⟨hn, -, -⟩)
      · rfl
      · exact absurd h1 hn
  · simp only [Option.some.injEq]
    constructor
    · intro h
      exact Or.inr ⟨h1, h2, h.symm⟩
    · rintro (⟨hc, rfl⟩ | ⟨-, -, rfl⟩)
      · exact absurd hc h1
      · rfl
  · constructor
    · intro h
      cases h
    · rintro (⟨hc, -⟩ | ⟨-, hc, -⟩)
      · exact absurd hc h1
      · exact absurd hc h2

/-- C7: the shopkeeper generator flags, per shop, exactly the aggregated
(shop, product) rows whose mean predicted quantity exceeds 1.5 times their mean
historical quantity (type increase_stock) or, failing that, falls below 0.5
times it (type decrease_stock), attaching the current average, the predicted
value and a reason string; and every aggregated row carries the per-group means
of the underlying data. -/
theorem shopkeeper_recommendations_spec (data : List PerfRow) (rec : StockRec) :
    (rec ∈ generate_shopkeeper_recommendations data ↔
      ∃ row ∈ shop_performance data,
        ((row.monthly_quantity * (3/2) < row.predicted_quantity ∧
          rec = { shop_id := row.shop_id, product_id := row.product_id,
                  product_name := perf_product_name data row.product_id,
                  type := "increase_stock",
                  current_avg := row.monthly_quantity,
                  predicted := row.predicted_quantity,
                  reason := "Expected significant demand increase" }) ∨
         (¬(row.monthly_quantity * (3/2) < row.predicted_quantity) ∧
          row.predicted_quantity < row.monthly_quantity * (1/2) ∧
          rec = { shop_id := row.shop_id, product_id := row.product_id,
                  product_name := perf_product_name data row.product_id,
                  type := "decrease_stock",
                  current_avg := row.monthly_quantity,
                  predicted := row.predicted_quantity,
                  reason := "Expected demand decrease" }))) ∧
    (∀ row ∈ shop_performance data,
      row.monthly_quantity =
        perfMean data (row.shop_id, row.product_id) (·.monthly_quantity) ∧
      row.predicted_quantity =
        perfMean data (row.shop_id, row.product_id) (·.predicted_quantity)) := by
  constructor
  · constructor
    · intro hmem
      rw [generate_shopkeeper_recommendations, List.mem_flatMap] at hmem
      obtain ⟨sh, -, hmem2⟩ := hmem
      rw [List.mem_filterMap] at hmem2
      obtain ⟨row, hrowfil, hemit⟩ := hmem2
      exact ⟨row, (List.mem_filter.mp hrowfil).1,
        (stock_rec_of_eq_some data row rec).mp hemit⟩
    · rintro ⟨row, hrow, hcase⟩
      rw [generate_shopkeeper_recommendations, List.mem_flatMap]
      refine ⟨row.shop_id,
        List.mem_dedup.mpr (List.mem_map.mpr ⟨row, hrow, rfl⟩), ?_⟩
      rw [List.mem_filterMap]
      exact ⟨row, List.mem_filter.mpr ⟨hrow, by simp⟩,
        (stock_rec_of_eq_some data row rec).mpr hcase⟩
  · intro row hrow
    rw [shop_performance, List.mem_map] at hrow
    obtain ⟨k, -, rfl⟩ := hrow
    exact ⟨rfl, rfl⟩

/-- Witness for C7: at the concrete data, the P1 row (mean 10, predicted 20)
yields an increase_stock record via the theorem. -/
theorem shopkeeper_recommendations_spec_witness :
    ({ shop_id := "S1", product_id := "P1", product_name := "Cola",
       type := "increase_stock", current_avg := 10, predicted := 20,
       reason := "Expected significant demand increase" } : StockRec) ∈
      generate_shopkeeper_recommendations perfData := by
  apply (shopkeeper_recommendations_spec perfData _).1.mpr
  refine ⟨⟨"S1", "P1", 20, 10⟩, ?_, Or.inl ⟨by norm_num, ?_⟩⟩
  · simp [shop_performance, perfData, perfKey, perfMean,
      List.dedup_cons_of_not_mem]
  · simp [perf_product_name, perfData]

/-- The head of a sorted list is related to every element. -/
lemma sorted_head?_rel {α : Type} {r : α → α → Prop} {l : List α} {b : α}
    (hs : List.Sorted r l) (hb : l.head? = some b) :
    ∀ x ∈ l, x = b ∨ r b x := by
  cases l with
  | nil => cases hb
  | cons a t =>
    rw [List.head?_cons, Option.some.injEq] at hb
    subst hb
    intro x hx
    rcases List.mem_cons.mp hx with rfl | hx2
    · exact Or.inl rfl
    · exact Or.inr (List.rel_of_sorted_cons hs x hx2)

/-- The last element of a sorted list is reached from every element. -/
lemma sorted_getLast?_rel {α : Type} {r : α → α → Prop} :
    ∀ (l : List α), List.Sorted r l → ∀ w, l.getLast? = some w →
      ∀ x ∈ l, x = w ∨ r x w := by
  intro l
  induction l with
  | nil =>
    intro _ w hw
    cases hw
  | cons a t ih =>
    intro hs w hw x hx
    cases t with
    | nil =>
      simp only [List.getLast?_singleton, Option.some.injEq] at hw
      simp only [List.mem_singleton] at hx
      subst hx
      exact Or.inl hw
    | cons b t2 =>
      rw [List.getLast?_cons_cons] at hw
      rcases List.mem_cons.mp hx with rfl | hx2
      · exact Or.inr
          (List.rel_of_sorted_cons hs w (List.mem_of_mem_getLast? hw))
      · exact ih hs.of_cons w hw x hx2

/-- C8: requesting the premium-only product-owner generation while the
subscription is free fails with the PermissionError message rather than
degrading; with subscription premium the same call returns the premium analysis:
per-product records whose best city has maximal mean sales among the product's
cities, whose worst city has minimal mean sales, and whose competitor count is
the number of (category, city) groups sharing the product's category. -/
theorem product_owner_premium_gate (current_subscription : String)
    (data : List CityRow) :
    (current_subscription = "free" →
      generate_product_owner_recommendations current_subscription data =
        Except.error "Premium features require subscription upgrade") ∧
    (current_subscription = "premium" →
      ∃ recs,
        generate_product_owner_recommendations current_subscription data =
          Except.ok (recs, "premium") ∧
        ∀ rec ∈ recs,
          rec.type = "premium_analysis" ∧
          (∃ cb ∈ product_city_perf data,
            cb.product_id = rec.product_id ∧
            cb.city = rec.best_performing_city ∧
            cb.qmean = rec.best_city_avg_sales) ∧
          (∀ c ∈ product_city_perf data, c.product_id = rec.product_id →
            c.qmean ≤ rec.best_city_avg_sales) ∧
          (∃ cw ∈ product_city_perf data,
            cw.product_id = rec.product_id ∧
            cw.city = rec.worst_performing_city ∧
            cw.qmean = rec.worst_city_avg_sales) ∧
          (∀ c ∈ product_city_perf data, c.product_id = rec.product_id →
            rec.worst_city_avg_sales ≤ c.qmean) ∧
          rec.competitor_count = ((product_competition data).filter
            (fun c => c.category == category_of data rec.product_id)).length) := by
  constructor
  · intro hsub
    subst hsub
    rw [generate_product_owner_recommendations, if_pos (by decide)]
  · intro hsub
    subst hsub
    rw [generate_product_owner_recommendations, if_neg (by simp)]
    refine ⟨_, rfl, ?_⟩
    intro rec hrec
    rw [List.mem_filterMap] at hrec
    obtain ⟨pid, -, hemit⟩ := hrec
    rw [owner_rec_of] at hemit
    by_cases hlen : 1 < (sorted_city_perf data pid).length
    case neg =>
      rw [if_neg hlen] at hemit
      cases hemit
    rw [if_pos hlen] at hemit
    rcases hhead : (sorted_city_perf data pid).head? with - | best
    · rw [hhead] at hemit
      rcases (sorted_city_perf data pid).getLast? with - | w
      · cases hemit
      · cases hemit
    rcases hlast : (sorted_city_perf data pid).getLast? with - | worst
    · rw [hhead, hlast] at hemit
      cases hemit
    rw [hhead, hlast] at hemit
    simp only [Option.some.injEq] at hemit
    subst hemit
    have hsorted : List.Sorted byDescQ (sorted_city_perf data pid) :=
      List.sorted_insertionSort byDescQ _
    have hperm := List.perm_insertionSort byDescQ
      ((product_city_perf data).filter (fun c => c.product_id == pid))
    have hbestmem : best ∈ sorted_city_perf data pid :=
      List.mem_of_mem_head? hhead
    have hworstmem : worst ∈ sorted_city_perf data pid :=
      List.mem_of_mem_getLast? hlast
    refine ⟨rfl, ?_, ?_, ?_, ?_, rfl⟩
    · have hb := List.mem_filter.mp (hperm.mem_iff.mp hbestmem)
      exact ⟨best, hb.1, by simpa using hb.2, rfl, rfl⟩
    · intro c hc hcpid
      have hcs : c ∈ sorted_city_perf data pid :=
        hperm.mem_iff.mpr (List.mem_filter.mpr ⟨hc, by simp [hcpid]⟩)
      rcases sorted_head?_rel hsorted hhead c hcs with rfl | hr
      · exact le_refl _
      · exact hr
    · have hw := List.mem_filter.mp (hperm.mem_iff.mp hworstmem)
      exact ⟨worst, hw.1, by simpa using hw.2, rfl, rfl⟩
    · intro c hc hcpid
      have hcs : c ∈ sorted_city_perf data pid :=
        hperm.mem_iff.mpr (List.mem_filter.mpr ⟨hc, by simp [hcpid]⟩)
      rcases sorted_getLast?_rel _ hsorted worst hlast c hcs with rfl | hr
      · exact le_refl _
      · exact hr

/-- Witness for C8: the theorem applied at concrete data - the free call fails
with the PermissionError message, the premium call returns the analysis. -/
theorem product_owner_premium_gate_witness :
    generate_product_owner_recommendations "free" cityData =
      Except.error "Premium features require subscription upgrade" ∧
    ∃ recs,
      generate_product_owner_recommendations "premium" cityData =
        Except.ok (recs, "premium") ∧
      ∀ rec ∈ recs,
        rec.type = "premium_analysis" ∧
        (∃ cb ∈ product_city_perf cityData,
          cb.product_id = rec.product_id ∧
          cb.city = rec.best_performing_city ∧
          cb.qmean = rec.best_city_avg_sales) ∧
        (∀ c ∈ product_city_perf cityData, c.product_id = rec.product_id →
          c.qmean ≤ rec.best_city_avg_sales) ∧
        (∃ cw ∈ product_city_perf cityData,
          cw.product_id = rec.product_id ∧
          cw.city = rec.worst_performing_city ∧
          cw.qmean = rec.worst_city_avg_sales) ∧
        (∀ c ∈ product_city_perf cityData, c.product_id = rec.product_id →
          rec.worst_city_avg_sales ≤ c.qmean) ∧
        rec.competitor_count = ((product_competition cityData).filter
          (fun c => c.category == category_of cityData rec.product_id)).length :=
  ⟨(product_owner_premium_gate "free" cityData).1 rfl,
   (product_owner_premium_gate "premium" cityData).2 rfl⟩

/-- C10: for every plan string, set_subscription matches it case-insensitively
against the known plans free and premium; on a match it stores the lowercased plan
name as the current subscription and returns True, and on any other string it
raises ValueError leaving the current subscription unchanged. -/
theorem set_subscription_spec (current plan : String) :
    ((pyLower plan = "free" ∨ pyLower plan = "premium") →
      set_subscription current plan = (pyLower plan, Except.ok true)) ∧
    (¬(pyLower plan = "free" ∨ pyLower plan = "premium") →
      ∃ msg, set_subscription current plan = (current, Except.error msg)) := by
  constructor
  · intro h
    simp only [set_subscription, subscription_plan_names, List.mem_cons,
      List.mem_singleton, List.not_mem_nil, or_false]
    rw [if_pos h]
  · intro h
    refine ⟨"Invalid subscription plan. Available: [free, premium]", ?_⟩
    simp only [set_subscription, subscription_plan_names, List.mem_cons,
      List.mem_singleton, List.not_mem_nil, or_false]
    rw [if_neg h]

/-- Witness for C10: the theorem applied at the concrete plans PREMIUM (accepted
case-insensitively, lowercased and stored) and gold (rejected, state kept). -/
theorem set_subscription_spec_witness :
    set_subscription "free" "PREMIUM" = (pyLower "PREMIUM", Except.ok true) ∧
    ∃ msg, set_subscription "premium" "gold" = ("premium", Except.error msg) :=
  ⟨(set_subscription_spec "free" "PREMIUM").1 (by decide),
   (set_subscription_spec "premium" "gold").2 (by decide)⟩

/-- C9 counterexample: with exactly 3 customer profiles,
perform_customer_segmentation (default n_clusters=4) does attempt K-means: the
outcome is the caught sklearn sample-count error reported as a generic
segmentation failure, which is not a dedicated not-enough-customers report (that
message exists only in the Streamlit dashboard, app.py line 1230, outside this
function). -/
theorem perform_customer_segmentation_three_customers :
    perform_customer_segmentation [sampleProfile, sampleProfile, sampleProfile] id 4 =
      SegOutcome.segError
        "Error in customer segmentation: n_samples=3 should be >= n_clusters=4" ∧
    "Error in customer segmentation: n_samples=3 should be >= n_clusters=4" ≠
      "Not enough customers for meaningful segmentation (need at least 4)" := by
  decide

/-- C9 amended: perform_customer_segmentation never clusters with more clusters
than customers, but not through a dedicated precheck: with a non-empty profile
table smaller than the requested cluster count the K-means call raises, the error
is caught, and the function returns False carrying a generic segmentation error
message; when it succeeds it emits one label per customer, every label is below
n_clusters, and n_clusters is at most the customer count. -/
theorem perform_customer_segmentation_cluster_bound
    (profiles : List CustomerProfile) (assign : Nat → Nat) (k : Nat) :
    (0 < profiles.length → profiles.length < k →
      ∃ msg, perform_customer_segmentation profiles assign k =
        SegOutcome.segError msg) ∧
    (∀ labels, perform_customer_segmentation profiles assign k =
        SegOutcome.success labels →
      labels.length = profiles.length ∧ (∀ l ∈ labels, l < k) ∧
        k ≤ profiles.length) := by
  constructor
  · intro hpos hlt
    refine ⟨"Error in customer segmentation: " ++ ("n_samples=" ++
      toString profiles.length ++ " should be >= n_clusters=" ++ toString k), ?_⟩
    have hk : k ≠ 0 := by omega
    have hne : profiles.length ≠ 0 := by omega
    simp [perform_customer_segmentation, kmeansFitPredict, hk, hne, hlt]
  · intro labels hsucc
    by_cases hne : profiles.length = 0
    · simp [perform_customer_segmentation, hne] at hsucc
    · by_cases hk : k = 0
      · simp [perform_customer_segmentation, kmeansFitPredict, hne, hk] at hsucc
      · by_cases hlt : profiles.length < k
        · simp [perform_customer_segmentation, kmeansFitPredict, hne, hk, hlt] at hsucc
        · have heval : perform_customer_segmentation profiles assign k =
              SegOutcome.success
                ((List.range profiles.length).map (fun i => assign i % k)) := by
            simp [perform_customer_segmentation, kmeansFitPredict, hne, hk, hlt]
          rw [heval] at hsucc
          injection hsucc with hlabels
          subst hlabels
          refine ⟨by simp, ?_, by omega⟩
          intro l hl
          simp only [List.mem_map, List.mem_range] at hl
          obtain ⟨i, _, rfl⟩ := hl
          exact Nat.mod_lt _ (Nat.pos_of_ne_zero hk)

/-- Witness for C9 amended: the theorem applied with three concrete profiles and
the default cluster count 4, discharging its hypotheses there. -/
theorem perform_customer_segmentation_cluster_bound_witness :
    ∃ msg, perform_customer_segmentation
      [sampleProfile, sampleProfile, sampleProfile] id 4 =
        SegOutcome.segError msg :=
  (perform_customer_segmentation_cluster_bound
    [sampleProfile, sampleProfile, sampleProfile] id 4).1 (by decide) (by decide)

end MeroPasal
